import Mathlib

/-!
Verification of the authentication and contact-service core of the
contacts-management backend (`src/services/auth.py`, `src/services/contacts.py`).

The Python code is shallowly embedded: JSON claim values become `CVal`,
Python dicts become association lists with `dictGet`/`dictSet`, wall-clock
time becomes an explicit integer `now` parameter (unix seconds), and a JWT
becomes a `Token` record carrying its payload together with the secret and
algorithm it was signed with and an `intact` flag (false models a
tampered/malformed signature).  Fallible code returns explicit outcome
types; an uncaught Python exception is the `pyError` outcome.
-/

/-- Value of a JSON claim inside a token payload: a string, an integer
(timestamps), or JSON null (Python `None`). -/
inductive CVal where
  | str (s : String)
  | int (n : Int)
  | null
deriving DecidableEq

/-- Python dict lookup `d[k]` as an option: first binding of the key. -/
def dictGet : List (String × CVal) → String → Option CVal
  | [], _ => none
  | p :: rest, k => if p.1 = k then some p.2 else dictGet rest k

/-- Python dict update `d[k] = v`: replace the first binding of the key,
or append a new binding when the key is absent. -/
def dictSet (d : List (String × CVal)) (k : String) (v : CVal) :
    List (String × CVal) :=
  match d with
  | [] => [(k, v)]
  | p :: rest => if p.1 = k then (k, v) :: rest else p :: dictSet rest k v

/-- Process configuration read by the token service: `JWT_SECRET`,
`JWT_ALGORITHM`, `JWT_EXPIRATION_SECONDS` (`src/conf/config.py` settings,
consumed in `src/services/auth.py`). -/
structure Settings where
  JWT_SECRET : String
  JWT_ALGORITHM : String
  JWT_EXPIRATION_SECONDS : Int
deriving DecidableEq

/-- Signed JWT as its observable content: the encoded payload, the secret
and algorithm it was signed with, and `intact = false` when the signature
was tampered with or the token is malformed. -/
structure Token where
  payload : List (String × CVal)
  secret : String
  alg : String
  intact : Bool
deriving DecidableEq

/-- Decode failure of the `jose` library, every case a subclass of
`JWTError` in Python. -/
inductive JWTErr where
  | malformed
  | invalidSignature
  | expiredSignature
deriving DecidableEq

/-- Embedding of `jose.jwt.encode(payload, secret, algorithm)`: signing
produces an intact token carrying the payload. -/
def jwtEncode (payload : List (String × CVal)) (secret alg : String) : Token :=
  Token.mk payload secret alg true

/-- Embedding of `jose.jwt.decode(token, key, algorithms)` at wall-clock
second `now`: verifies intactness, key and algorithm, then the `exp`
claim (a decoded token whose integer `exp` lies strictly in the past is
rejected as expired).  Optional claim-set checks beyond `exp` are not
modelled. -/
def jwtDecode (t : Token) (key : String) (algs : List String) (now : Int) :
    Except JWTErr (List (String × CVal)) :=
  if t.intact = false then Except.error JWTErr.malformed
  else if t.secret ≠ key then Except.error JWTErr.invalidSignature
  else if ¬ (t.alg ∈ algs) then Except.error JWTErr.invalidSignature
  else
    match dictGet t.payload "exp" with
    | some (CVal.int e) =>
      if e < now then Except.error JWTErr.expiredSignature
      else Except.ok t.payload
    | some _ => Except.error JWTErr.malformed
    | none => Except.ok t.payload

/-- Embedding of `create_access_token(data, expires_delta)` from
`src/services/auth.py`: copies `data`, computes the expiry from
`expires_delta` when that value is truthy (Python `if expires_delta:` is
false for both `None` and `0`), otherwise from
`settings.JWT_EXPIRATION_SECONDS`, stores it under `"exp"` and signs. -/
def create_access_token (s : Settings) (now : Int)
    (data : List (String × CVal)) (expires_delta : Option Int) : Token :=
  let expire : Int :=
    match expires_delta with
    | some d => if d = 0 then now + s.JWT_EXPIRATION_SECONDS else now + d
    | none => now + s.JWT_EXPIRATION_SECONDS
  let to_encode := dictSet data "exp" (CVal.int expire)
  jwtEncode to_encode s.JWT_SECRET s.JWT_ALGORITHM

/-- Embedding of `create_email_token(data)` from `src/services/auth.py`:
copies `data`, merges `iat = now` and `exp = now + 7 days` and signs. -/
def create_email_token (s : Settings) (now : Int)
    (data : List (String × CVal)) : Token :=
  let expire : Int := now + 7 * 86400
  let to_encode := dictSet (dictSet data "iat" (CVal.int now)) "exp" (CVal.int expire)
  jwtEncode to_encode s.JWT_SECRET s.JWT_ALGORITHM

/-- User row of the directory: id, unique username, email, verification flag. -/
structure UserRec where
  id : Nat
  username : String
  email : String
  verified : Bool
deriving DecidableEq

/-- Modelled from the spec: `UserService.get_user_by_username` (the User
Directory, `src/services/users.py`, absent from the sources) looks a user
up by username and returns none when no user matches.  The argument is the
raw `sub` claim value; a non-string claim matches no user. -/
def get_user_by_username (db : List UserRec) (username : CVal) : Option UserRec :=
  db.find? (fun u => CVal.str u.username == username)

/-- Outcome of the auth-gate dependency: the authenticated user, an
`HTTPException` (status, detail, whether a `WWW-Authenticate: Bearer`
header is attached), or an uncaught Python exception. -/
inductive AuthOutcome where
  | ok (u : UserRec)
  | http (status : Nat) (detail : String) (wwwAuthBearer : Bool)
  | pyError (name : String)
deriving DecidableEq

/-- Embedding of `get_current_user` from `src/services/auth.py`: decodes
the bearer token (`except JWTError` maps every decode failure to the 401
`credentials_exception`), evaluates `payload["sub"]` — which raises an
uncaught `KeyError` when the claim is absent, since `KeyError` is not a
`JWTError` — checks the value against `None`, then loads the user and
rejects with the same 401 when none is found. -/
def get_current_user (s : Settings) (db : List UserRec) (now : Int)
    (token : Token) : AuthOutcome :=
  match jwtDecode token s.JWT_SECRET [s.JWT_ALGORITHM] now with
  | Except.error _ => AuthOutcome.http 401 "Could not validate credentials" true
  | Except.ok payload =>
    match dictGet payload "sub" with
    | none => AuthOutcome.pyError "KeyError"
    | some username =>
      if username = CVal.null then
        AuthOutcome.http 401 "Could not validate credentials" true
      else
        match get_user_by_username db username with
        | none => AuthOutcome.http 401 "Could not validate credentials" true
        | some u => AuthOutcome.ok u

/-- Outcome of `get_email_from_token`: the extracted subject value, an
`HTTPException`, or an uncaught Python exception. -/
inductive EmailTokenOutcome where
  | ok (v : CVal)
  | http (status : Nat) (detail : String)
  | pyError (name : String)
deriving DecidableEq

/-- Embedding of `get_email_from_token` from `src/services/auth.py`:
decodes the email-verification token (`except JWTError` maps every decode
failure to HTTP 422) and evaluates `payload["sub"]`, which raises an
uncaught `KeyError` when the claim is absent. -/
def get_email_from_token (s : Settings) (now : Int) (token : Token) :
    EmailTokenOutcome :=
  match jwtDecode token s.JWT_SECRET [s.JWT_ALGORITHM] now with
  | Except.error _ =>
    EmailTokenOutcome.http 422 "Неправильний токен для перевірки електронної пошти"
  | Except.ok payload =>
    match dictGet payload "sub" with
    | none => EmailTokenOutcome.pyError "KeyError"
    | some v => EmailTokenOutcome.ok v

/-- Modelled from the spec: a bcrypt hash string produced by the passlib
`CryptContext` (an external library).  Per spec section 4.1 the hash embeds
its salt and parameters, and verification recomputes the digest of the
plain text with the embedded salt and compares; the digest is idealised as
collision-free by letting it determine the (salt, password) pair. -/
structure HashStr where
  salt : Nat
  digest : Nat × String
deriving DecidableEq

/-- Embedding of `Hash.get_password_hash` from `src/services/auth.py`;
the salt drawn by bcrypt is passed explicitly. -/
def Hash.get_password_hash (salt : Nat) (password : String) : HashStr :=
  HashStr.mk salt (salt, password)

/-- Embedding of `Hash.verify_password` from `src/services/auth.py`:
recomputes the digest of the plain password with the hash's embedded salt
and compares, returning a boolean and never raising. -/
def Hash.verify_password (plain : String) (hashed : HashStr) : Bool :=
  decide (hashed.digest = (hashed.salt, plain))

/-- Contact attributes carried by the request body (`ContactModel` of
`src/schemas.py`, fields per spec section 3). -/
structure ContactModel where
  name : String
  surname : String
  email : String
  phone : String
  birthday : String
  notes : String
deriving DecidableEq

/-- Stored contact row: id, attributes, owning user (ownership foreign key). -/
structure Contact where
  id : Nat
  info : ContactModel
  ownerId : Nat
deriving DecidableEq

/-- State of the contact store: the rows and the next fresh row id. -/
structure DBState where
  contacts : List Contact
  nextId : Nat
deriving DecidableEq

namespace ContactRepository

/-- Modelled from the spec: `ContactRepository.is_contact_exists(email,
phone, user)` (`src/repository/contacts.py`, absent from the sources)
reports whether this user already owns a contact with the same email or
the same phone. -/
def is_contact_exists (email phone : String) (user : UserRec) (st : DBState) : Bool :=
  st.contacts.any (fun c => c.ownerId == user.id && (c.info.email == email || c.info.phone == phone))

/-- Modelled from the spec: `ContactRepository.create_contact(body, user)`
inserts a fresh row owned by the user and returns it. -/
def create_contact (body : ContactModel) (user : UserRec) (st : DBState) :
    Contact × DBState :=
  let c : Contact := Contact.mk st.nextId body user.id
  (c, DBState.mk (st.contacts ++ [c]) (st.nextId + 1))

/-- Modelled from the spec: `ContactRepository.get_contact_by_id(id, user)`
returns the row with this id owned by this user, none otherwise. -/
def get_contact_by_id (cid : Nat) (user : UserRec) (st : DBState) : Option Contact :=
  st.contacts.find? (fun c => c.id == cid && c.ownerId == user.id)

/-- Modelled from the spec: `ContactRepository.update_contact(id, body,
user)` overwrites the attributes of the row with this id owned by this
user and returns the updated row, or returns none leaving the store
unchanged when no such row exists. -/
def update_contact (cid : Nat) (body : ContactModel) (user : UserRec) (st : DBState) :
    Option Contact × DBState :=
  match st.contacts.find? (fun c => c.id == cid && c.ownerId == user.id) with
  | none => (none, st)
  | some c =>
    let c' : Contact := Contact.mk c.id body c.ownerId
    (some c',
     DBState.mk (st.contacts.map (fun x => if x.id == cid && x.ownerId == user.id then c' else x)) st.nextId)

/-- Modelled from the spec: `ContactRepository.remove_contact(id, user)`
deletes the row with this id owned by this user and returns it, or returns
none leaving the store unchanged when no such row exists. -/
def remove_contact (cid : Nat) (user : UserRec) (st : DBState) :
    Option Contact × DBState :=
  match st.contacts.find? (fun c => c.id == cid && c.ownerId == user.id) with
  | none => (none, st)
  | some c =>
    (some c,
     DBState.mk (st.contacts.filter (fun x => !(x.id == cid && x.ownerId == user.id))) st.nextId)

end ContactRepository

/-- Outcome of a contact-service call: the value, or an `HTTPException`
with status code and detail message. -/
inductive SvcOutcome (α : Type) where
  | ok (a : α)
  | http (status : Nat) (detail : String)
deriving DecidableEq

/-- Detail message of the duplicate-contact `HTTPException` raised by
`ContactService.create_contact` (f-string of `src/services/contacts.py`). -/
def dupDetail (body : ContactModel) : String :=
  "Contact with '" ++ body.email ++ "' email or '" ++ body.phone ++
    "' phone number already exists."

namespace ContactService

/-- Embedding of `ContactService.create_contact` from
`src/services/contacts.py`: asks the repository whether a contact with the
same email or phone exists for this user, raises HTTP 400 with the detail
naming the conflicting email and phone if so, and otherwise delegates to
the repository create. -/
def create_contact (body : ContactModel) (user : UserRec) (st : DBState) :
    SvcOutcome Contact × DBState :=
  if ContactRepository.is_contact_exists body.email body.phone user st then
    (SvcOutcome.http 400 (dupDetail body), st)
  else
    let r := ContactRepository.create_contact body user st
    (SvcOutcome.ok r.1, r.2)

/-- Embedding of `ContactService.get_contact` from
`src/services/contacts.py`: fetches by id scoped to the user and raises
HTTP 404 when the repository returns none. -/
def get_contact (cid : Nat) (user : UserRec) (st : DBState) : SvcOutcome Contact :=
  match ContactRepository.get_contact_by_id cid user st with
  | none => SvcOutcome.http 404 "Contact not found"
  | some c => SvcOutcome.ok c

/-- Embedding of `ContactService.update_contact` from
`src/services/contacts.py`: delegates to the repository update and raises
HTTP 404 when it signals no matching row. -/
def update_contact (cid : Nat) (body : ContactModel) (user : UserRec) (st : DBState) :
    SvcOutcome Contact × DBState :=
  let r := ContactRepository.update_contact cid body user st
  match r.1 with
  | none => (SvcOutcome.http 404 "Contact not found", r.2)
  | some c => (SvcOutcome.ok c, r.2)

/-- Embedding of `ContactService.remove_contact` from
`src/services/contacts.py`: delegates to the repository remove and raises
HTTP 404 when it signals no matching row. -/
def remove_contact (cid : Nat) (user : UserRec) (st : DBState) :
    SvcOutcome Contact × DBState :=
  let r := ContactRepository.remove_contact cid user st
  match r.1 with
  | none => (SvcOutcome.http 404 "Contact not found", r.2)
  | some c => (SvcOutcome.ok c, r.2)

end ContactService

/-- Lookup after update: the updated key reads the new value, every other
key is unchanged. -/
theorem dictGet_dictSet (d : List (String × CVal)) (k k' : String) (v : CVal) :
    dictGet (dictSet d k v) k' = if k' = k then some v else dictGet d k' := by
  induction d with
  | nil =>
    by_cases h : k' = k
    · simp [dictSet, dictGet, h]
    · have hk : ¬ k = k' := fun hh => h hh.symm
      simp [dictSet, dictGet, h, hk]
  | cons p rest ih =>
    by_cases hp : p.1 = k
    · by_cases h : k' = k
      · subst h
        simp [dictSet, dictGet, hp]
      · have hk : ¬ k = k' := fun hh => h hh.symm
        have hpk : ¬ p.1 = k' := by rw [hp]; exact hk
        simp [dictSet, dictGet, hp, h, hk, hpk]
    · by_cases h : k' = k
      · subst h
        simp [dictSet, dictGet, hp, ih]
      · simp [dictSet, dictGet, hp, h, ih]

/-- C5 (amended): for every claims mapping, the payload of
`create_access_token` equals the input claims with `exp` set: to
`now + ttl_seconds` when a nonzero `ttl_seconds` integer is supplied, and
to `now + JWT_EXPIRATION_SECONDS` when `ttl_seconds` is absent or equals 0
(Python `if expires_delta:` treats 0 like `None`). -/
theorem access_token_exp_claim (s : Settings) (now : Int)
    (data : List (String × CVal)) (d : Int) :
    (create_access_token s now data none).payload
        = dictSet data "exp" (CVal.int (now + s.JWT_EXPIRATION_SECONDS))
      ∧ (create_access_token s now data (some 0)).payload
        = dictSet data "exp" (CVal.int (now + s.JWT_EXPIRATION_SECONDS))
      ∧ (d ≠ 0 → (create_access_token s now data (some d)).payload
        = dictSet data "exp" (CVal.int (now + d))) := by
  refine ⟨rfl, rfl, fun hd => ?_⟩
  simp [create_access_token, jwtEncode, hd]

/-- Witness for `access_token_exp_claim` at a concrete configuration,
claims mapping and nonzero ttl. -/
theorem access_token_exp_claim_witness :
    (create_access_token ⟨"secret", "HS256", 3600⟩ 1000
        [("sub", CVal.str "alice")] (some 60)).payload
      = dictSet [("sub", CVal.str "alice")] "exp" (CVal.int (1000 + 60)) :=
  (access_token_exp_claim ⟨"secret", "HS256", 3600⟩ 1000
    [("sub", CVal.str "alice")] 60).2.2 (by decide)

/-- C5 counterexample: with `JWT_EXPIRATION_SECONDS = 3600`, issuing at
`now = 0` with the supplied integer `ttl_seconds = 0` yields an `exp`
claim of 3600, not `now + ttl_seconds = 0` as the claim states. -/
theorem access_token_ttl_zero_counterexample :
    dictGet (create_access_token ⟨"secret", "HS256", 3600⟩ 0 [] (some 0)).payload "exp"
        = some (CVal.int 3600)
      ∧ dictGet (create_access_token ⟨"secret", "HS256", 3600⟩ 0 [] (some 0)).payload "exp"
        ≠ some (CVal.int 0) := by
  constructor
  · rfl
  · decide

/-- C6: the token produced by `create_email_token` always carries integer
`iat` and `exp` claims with `iat < exp` and `exp - iat` equal to exactly
7 days (604800 seconds). -/
theorem email_token_iat_exp (s : Settings) (now : Int)
    (data : List (String × CVal)) :
    ∃ i e : Int,
      dictGet (create_email_token s now data).payload "iat" = some (CVal.int i)
        ∧ dictGet (create_email_token s now data).payload "exp" = some (CVal.int e)
        ∧ i < e ∧ e - i = 7 * 86400 := by
  refine ⟨now, now + 7 * 86400, ?_, ?_, by omega, by omega⟩
  · show dictGet (dictSet (dictSet data "iat" (CVal.int now)) "exp"
      (CVal.int (now + 7 * 86400))) "iat" = some (CVal.int now)
    rw [dictGet_dictSet]
    simp [dictGet_dictSet]
  · show dictGet (dictSet (dictSet data "iat" (CVal.int now)) "exp"
      (CVal.int (now + 7 * 86400))) "exp" = some (CVal.int (now + 7 * 86400))
    rw [dictGet_dictSet]
    simp

/-- C9: the token builders are pure — they copy the caller's dict
(`data.copy()` in the source), so in this embedding the input mapping is
returned untouched — and every claim under a key other than `exp` and
`iat` reads the same value in the encoded payload as in the input
mapping. -/
theorem token_payload_preserves_claims (s : Settings) (now : Int)
    (data : List (String × CVal)) (d : Option Int) (k : String)
    (hek : k ≠ "exp") (hik : k ≠ "iat") :
    dictGet (create_access_token s now data d).payload k = dictGet data k
      ∧ dictGet (create_email_token s now data).payload k = dictGet data k := by
  constructor
  · cases d with
    | none =>
      show dictGet (dictSet data "exp" (CVal.int (now + s.JWT_EXPIRATION_SECONDS))) k
        = dictGet data k
      rw [dictGet_dictSet]
      simp [hek]
    | some x =>
      by_cases hx : x = 0
      · subst hx
        show dictGet (dictSet data "exp" (CVal.int (now + s.JWT_EXPIRATION_SECONDS))) k
          = dictGet data k
        rw [dictGet_dictSet]
        simp [hek]
      · have hpv : (create_access_token s now data (some x)).payload
            = dictSet data "exp" (CVal.int (now + x)) := by
          simp [create_access_token, jwtEncode, hx]
        rw [hpv, dictGet_dictSet]
        simp [hek]
  · show dictGet (dictSet (dictSet data "iat" (CVal.int now)) "exp"
      (CVal.int (now + 7 * 86400))) k = dictGet data k
    rw [dictGet_dictSet, dictGet_dictSet]
    simp [hek, hik]

/-- Witness for `token_payload_preserves_claims` at the concrete claim key
`"sub"`. -/
theorem token_payload_preserves_claims_witness :
    dictGet (create_access_token ⟨"secret", "HS256", 3600⟩ 7
        [("sub", CVal.str "bob")] (some 60)).payload "sub"
      = dictGet [("sub", CVal.str "bob")] "sub" :=
  (token_payload_preserves_claims ⟨"secret", "HS256", 3600⟩ 7
    [("sub", CVal.str "bob")] (some 60) "sub" (by decide) (by decide)).1

/-- C7 (amended): for every claims mapping and nonzero ttl T, the token
issued by `create_access_token` with ttl T, decoded with the same secret
and algorithm, succeeds — recovering the input claims with the `exp`
claim set to `issue + T` — at any time strictly before T seconds have
elapsed since issuance, and fails with the expired-signature `JWTError`
at any time strictly after T seconds have elapsed.  For ttl 0 the expiry
falls back to the configured default (see
`access_token_roundtrip_ttl_zero_counterexample`). -/
theorem access_token_roundtrip (s : Settings) (data : List (String × CVal))
    (T issue t : Int) (hT : T ≠ 0) :
    (t < issue + T →
        jwtDecode (create_access_token s issue data (some T))
            s.JWT_SECRET [s.JWT_ALGORITHM] t
          = Except.ok (dictSet data "exp" (CVal.int (issue + T))))
      ∧ (issue + T < t →
        jwtDecode (create_access_token s issue data (some T))
            s.JWT_SECRET [s.JWT_ALGORITHM] t
          = Except.error JWTErr.expiredSignature) := by
  have hpv : create_access_token s issue data (some T)
      = jwtEncode (dictSet data "exp" (CVal.int (issue + T)))
          s.JWT_SECRET s.JWT_ALGORITHM := by
    simp [create_access_token, hT]
  have hexp : dictGet (dictSet data "exp" (CVal.int (issue + T))) "exp"
      = some (CVal.int (issue + T)) := by
    rw [dictGet_dictSet]
    simp
  constructor
  · intro ht
    have hnl : ¬ (issue + T < t) := by omega
    rw [hpv]
    simp [jwtDecode, jwtEncode, hexp, hnl]
  · intro ht
    rw [hpv]
    simp [jwtDecode, jwtEncode, hexp, ht]

/-- Witness for `access_token_roundtrip`: a token issued at second 0 with
ttl 10 decodes at second 5 and is rejected as expired at second 11. -/
theorem access_token_roundtrip_witness :
    jwtDecode (create_access_token ⟨"secret", "HS256", 3600⟩ 0
          [("sub", CVal.str "alice")] (some 10)) "secret" ["HS256"] 5
        = Except.ok (dictSet [("sub", CVal.str "alice")] "exp" (CVal.int (0 + 10)))
      ∧ jwtDecode (create_access_token ⟨"secret", "HS256", 3600⟩ 0
          [("sub", CVal.str "alice")] (some 10)) "secret" ["HS256"] 11
        = Except.error JWTErr.expiredSignature :=
  ⟨(access_token_roundtrip ⟨"secret", "HS256", 3600⟩ [("sub", CVal.str "alice")]
      10 0 5 (by decide)).1 (by decide),
   (access_token_roundtrip ⟨"secret", "HS256", 3600⟩ [("sub", CVal.str "alice")]
      10 0 11 (by decide)).2 (by decide)⟩

/-- C7 counterexample: with ttl T = 0 and `JWT_EXPIRATION_SECONDS = 3600`,
one second after issuance — strictly after T seconds have elapsed —
decoding still succeeds (the expiry silently fell back to the configured
default), contradicting the claim that decode fails after T seconds. -/
theorem access_token_roundtrip_ttl_zero_counterexample :
    (0 : Int) + 0 < 1
      ∧ jwtDecode (create_access_token ⟨"secret", "HS256", 3600⟩ 0 [] (some 0))
          "secret" ["HS256"] 1
        = Except.ok [("exp", CVal.int 3600)] := by
  constructor
  · decide
  · rfl

/-- C1: evaluation of the auth gate on each of the four failure cases and
on a good token, at the configuration (secret, HS256, 3600), directory
{alice} and wall-clock second 100.  The expired token, the
tampered-signature token and the token with unknown subject each surface
the single 401 `Unauthenticated` error with the `WWW-Authenticate: Bearer`
challenge, and a good token returns the looked-up user; but the token
whose payload has no `sub` claim raises an uncaught Python `KeyError`
(`payload["sub"]` is outside the reach of `except JWTError`), not the 401
the claim states. -/
theorem auth_gate_failure_modes :
    get_current_user ⟨"secret", "HS256", 3600⟩ [⟨1, "alice", "alice@x.com", true⟩] 100
        (Token.mk [("sub", CVal.str "alice"), ("exp", CVal.int 10)] "secret" "HS256" true)
      = AuthOutcome.http 401 "Could not validate credentials" true
    ∧ get_current_user ⟨"secret", "HS256", 3600⟩ [⟨1, "alice", "alice@x.com", true⟩] 100
        (Token.mk [("sub", CVal.str "alice"), ("exp", CVal.int 1000)] "secret" "HS256" false)
      = AuthOutcome.http 401 "Could not validate credentials" true
    ∧ get_current_user ⟨"secret", "HS256", 3600⟩ [⟨1, "alice", "alice@x.com", true⟩] 100
        (Token.mk [("sub", CVal.str "ghost"), ("exp", CVal.int 1000)] "secret" "HS256" true)
      = AuthOutcome.http 401 "Could not validate credentials" true
    ∧ get_current_user ⟨"secret", "HS256", 3600⟩ [⟨1, "alice", "alice@x.com", true⟩] 100
        (Token.mk [("sub", CVal.str "alice"), ("exp", CVal.int 1000)] "secret" "HS256" true)
      = AuthOutcome.ok ⟨1, "alice", "alice@x.com", true⟩
    ∧ get_current_user ⟨"secret", "HS256", 3600⟩ [⟨1, "alice", "alice@x.com", true⟩] 100
        (Token.mk [("exp", CVal.int 1000)] "secret" "HS256" true)
      = AuthOutcome.pyError "KeyError" :=
  ⟨rfl, rfl, rfl, rfl, rfl⟩

/-- C4: evaluation of `get_email_from_token` at the configuration
(secret, HS256, 3600) and wall-clock second 100.  A tampered token and an
expired token each surface HTTP 422, and a decodable token with a `sub`
claim returns that claim's value; but a decodable token whose payload has
no `sub` claim raises an uncaught Python `KeyError` (`payload["sub"]` is
outside the reach of `except JWTError`), not the 422 the claim states. -/
theorem email_token_resolve_modes :
    get_email_from_token ⟨"secret", "HS256", 3600⟩ 100
        (Token.mk [("sub", CVal.str "a@x.com"), ("exp", CVal.int 1000)] "secret" "HS256" false)
      = EmailTokenOutcome.http 422 "Неправильний токен для перевірки електронної пошти"
    ∧ get_email_from_token ⟨"secret", "HS256", 3600⟩ 100
        (Token.mk [("sub", CVal.str "a@x.com"), ("exp", CVal.int 10)] "secret" "HS256" true)
      = EmailTokenOutcome.http 422 "Неправильний токен для перевірки електронної пошти"
    ∧ get_email_from_token ⟨"secret", "HS256", 3600⟩ 100
        (Token.mk [("sub", CVal.str "a@x.com"), ("exp", CVal.int 1000)] "secret" "HS256" true)
      = EmailTokenOutcome.ok (CVal.str "a@x.com")
    ∧ get_email_from_token ⟨"secret", "HS256", 3600⟩ 100
        (Token.mk [("exp", CVal.int 1000)] "secret" "HS256" true)
      = EmailTokenOutcome.pyError "KeyError" :=
  ⟨rfl, rfl, rfl, rfl⟩

/-- C8: hasher round-trip — verification succeeds on the hash of the same
password for every salt, fails on every mismatched plaintext, and fails on
every mutated hash (any hash value that is not the hash of the password
under its own embedded salt), always returning a boolean rather than
raising. -/
theorem hash_verify_roundtrip (salt : Nat) (p : String) :
    Hash.verify_password p (Hash.get_password_hash salt p) = true
      ∧ (∀ q : String, q ≠ p →
        Hash.verify_password q (Hash.get_password_hash salt p) = false)
      ∧ (∀ h : HashStr, h ≠ Hash.get_password_hash h.salt p →
        Hash.verify_password p h = false) := by
  refine ⟨?_, ?_, ?_⟩
  · simp [Hash.verify_password, Hash.get_password_hash]
  · intro q hq
    simp [Hash.verify_password, Hash.get_password_hash]
    intro h'
    exact absurd h'.symm hq
  · intro h hm
    by_contra hv
    simp [Hash.verify_password] at hv
    apply hm
    cases h with
    | mk hs hd =>
      simp at hv
      simp [Hash.get_password_hash, hv]

/-- Witness for `hash_verify_roundtrip` at salt 1 and password "pw":
verification succeeds on the matching hash, fails on the plaintext "x",
and fails on the hash mutated to carry digest (2, "pw"). -/
theorem hash_verify_roundtrip_witness :
    Hash.verify_password "pw" (Hash.get_password_hash 1 "pw") = true
      ∧ Hash.verify_password "x" (Hash.get_password_hash 1 "pw") = false
      ∧ Hash.verify_password "pw" (HashStr.mk 1 (2, "pw")) = false :=
  ⟨(hash_verify_roundtrip 1 "pw").1,
   (hash_verify_roundtrip 1 "pw").2.1 "x" (by decide),
   (hash_verify_roundtrip 1 "pw").2.2 (HashStr.mk 1 (2, "pw")) (by decide)⟩

/-- C2: `ContactService.create_contact` raises HTTP 400 with the detail
naming the conflicting email and phone exactly when the repository reports
an existing contact with the same email or phone for this user, otherwise
returns exactly the repository's create result; and when every stored
contact sharing the email or phone belongs to a different user, creation
succeeds. -/
theorem create_contact_duplicate_iff (body : ContactModel) (user : UserRec)
    (st : DBState) :
    (((ContactService.create_contact body user st).1
          = SvcOutcome.http 400 (dupDetail body))
        ↔ ContactRepository.is_contact_exists body.email body.phone user st = true)
      ∧ (ContactRepository.is_contact_exists body.email body.phone user st = false →
        ContactService.create_contact body user st
          = (SvcOutcome.ok (ContactRepository.create_contact body user st).1,
             (ContactRepository.create_contact body user st).2))
      ∧ ((∀ c ∈ st.contacts,
            (c.info.email = body.email ∨ c.info.phone = body.phone) →
            c.ownerId ≠ user.id) →
        (ContactService.create_contact body user st).1
          = SvcOutcome.ok (ContactRepository.create_contact body user st).1) := by
  refine ⟨?_, ?_, ?_⟩
  · by_cases h : ContactRepository.is_contact_exists body.email body.phone user st = true
    · simp [ContactService.create_contact, h]
    · simp [ContactService.create_contact, h]
  · intro h
    simp [ContactService.create_contact, h]
  · intro hall
    have h : ContactRepository.is_contact_exists body.email body.phone user st = false := by
      simp [ContactRepository.is_contact_exists]
      intro c hc hid
      have := hall c hc
      constructor
      · intro he
        exact absurd hid (this (Or.inl he))
      · intro hp
        exact absurd hid (this (Or.inr hp))
    simp [ContactService.create_contact, h]

/-- Witness for `create_contact_duplicate_iff`: creating into an empty
store succeeds, and creating a contact whose email and phone both match a
contact owned by a different user also succeeds. -/
theorem create_contact_duplicate_iff_witness :
    (ContactService.create_contact ⟨"n", "s", "a@x.com", "111", "2000-01-01", ""⟩
        ⟨1, "u1", "u1@x.com", true⟩ ⟨[], 0⟩).1
      = SvcOutcome.ok (ContactRepository.create_contact
          ⟨"n", "s", "a@x.com", "111", "2000-01-01", ""⟩
          ⟨1, "u1", "u1@x.com", true⟩ ⟨[], 0⟩).1
    ∧ (ContactService.create_contact ⟨"n", "s", "a@x.com", "111", "2000-01-01", ""⟩
        ⟨1, "u1", "u1@x.com", true⟩
        ⟨[⟨0, ⟨"m", "t", "a@x.com", "111", "1990-01-01", ""⟩, 2⟩], 1⟩).1
      = SvcOutcome.ok (ContactRepository.create_contact
          ⟨"n", "s", "a@x.com", "111", "2000-01-01", ""⟩
          ⟨1, "u1", "u1@x.com", true⟩
          ⟨[⟨0, ⟨"m", "t", "a@x.com", "111", "1990-01-01", ""⟩, 2⟩], 1⟩).1 :=
  ⟨(create_contact_duplicate_iff ⟨"n", "s", "a@x.com", "111", "2000-01-01", ""⟩
      ⟨1, "u1", "u1@x.com", true⟩ ⟨[], 0⟩).2.2 (by decide),
   (create_contact_duplicate_iff ⟨"n", "s", "a@x.com", "111", "2000-01-01", ""⟩
      ⟨1, "u1", "u1@x.com", true⟩
      ⟨[⟨0, ⟨"m", "t", "a@x.com", "111", "1990-01-01", ""⟩, 2⟩], 1⟩).2.2 (by decide)⟩

/-- C3: each of `get_contact`, `update_contact` and `remove_contact`
raises HTTP 404 "Contact not found" exactly when the repository returns
none for that id scoped to that user, and otherwise returns exactly the
contact value the repository returned. -/
theorem contact_not_found_iff (cid : Nat) (body : ContactModel) (user : UserRec)
    (st : DBState) :
    ((ContactService.get_contact cid user st = SvcOutcome.http 404 "Contact not found")
        ↔ ContactRepository.get_contact_by_id cid user st = none)
      ∧ (∀ c, ContactRepository.get_contact_by_id cid user st = some c →
        ContactService.get_contact cid user st = SvcOutcome.ok c)
      ∧ (((ContactService.update_contact cid body user st).1
          = SvcOutcome.http 404 "Contact not found")
        ↔ (ContactRepository.update_contact cid body user st).1 = none)
      ∧ (∀ c, (ContactRepository.update_contact cid body user st).1 = some c →
        (ContactService.update_contact cid body user st).1 = SvcOutcome.ok c)
      ∧ (((ContactService.remove_contact cid user st).1
          = SvcOutcome.http 404 "Contact not found")
        ↔ (ContactRepository.remove_contact cid user st).1 = none)
      ∧ (∀ c, (ContactRepository.remove_contact cid user st).1 = some c →
        (ContactService.remove_contact cid user st).1 = SvcOutcome.ok c) := by
  refine ⟨?_, ?_, ?_, ?_, ?_, ?_⟩
  · cases hr : ContactRepository.get_contact_by_id cid user st with
    | none => simp [ContactService.get_contact, hr]
    | some c => simp [ContactService.get_contact, hr]
  · intro c hc
    simp [ContactService.get_contact, hc]
  · cases hr : (ContactRepository.update_contact cid body user st).1 with
    | none => simp [ContactService.update_contact, hr]
    | some c => simp [ContactService.update_contact, hr]
  · intro c hc
    simp [ContactService.update_contact, hc]
  · cases hr : (ContactRepository.remove_contact cid user st).1 with
    | none => simp [ContactService.remove_contact, hr]
    | some c => simp [ContactService.remove_contact, hr]
  · intro c hc
    simp [ContactService.remove_contact, hc]

/-- Witness for `contact_not_found_iff`: in a store holding contact 5
owned by user 1, `get`, `update` and `remove` each return the repository's
contact. -/
theorem contact_not_found_iff_witness :
    ContactService.get_contact 5 ⟨1, "u1", "u1@x.com", true⟩
        ⟨[⟨5, ⟨"n", "s", "a@x.com", "111", "2000-01-01", ""⟩, 1⟩], 6⟩
      = SvcOutcome.ok ⟨5, ⟨"n", "s", "a@x.com", "111", "2000-01-01", ""⟩, 1⟩
    ∧ (ContactService.update_contact 5 ⟨"n2", "s2", "b@x.com", "222", "2000-01-02", ""⟩
        ⟨1, "u1", "u1@x.com", true⟩
        ⟨[⟨5, ⟨"n", "s", "a@x.com", "111", "2000-01-01", ""⟩, 1⟩], 6⟩).1
      = SvcOutcome.ok ⟨5, ⟨"n2", "s2", "b@x.com", "222", "2000-01-02", ""⟩, 1⟩
    ∧ (ContactService.remove_contact 5 ⟨1, "u1", "u1@x.com", true⟩
        ⟨[⟨5, ⟨"n", "s", "a@x.com", "111", "2000-01-01", ""⟩, 1⟩], 6⟩).1
      = SvcOutcome.ok ⟨5, ⟨"n", "s", "a@x.com", "111", "2000-01-01", ""⟩, 1⟩ :=
  ⟨(contact_not_found_iff 5 ⟨"n2", "s2", "b@x.com", "222", "2000-01-02", ""⟩
      ⟨1, "u1", "u1@x.com", true⟩
      ⟨[⟨5, ⟨"n", "s", "a@x.com", "111", "2000-01-01", ""⟩, 1⟩], 6⟩).2.1
      ⟨5, ⟨"n", "s", "a@x.com", "111", "2000-01-01", ""⟩, 1⟩ (by decide),
   (contact_not_found_iff 5 ⟨"n2", "s2", "b@x.com", "222", "2000-01-02", ""⟩
      ⟨1, "u1", "u1@x.com", true⟩
      ⟨[⟨5, ⟨"n", "s", "a@x.com", "111", "2000-01-01", ""⟩, 1⟩], 6⟩).2.2.2.1
      ⟨5, ⟨"n2", "s2", "b@x.com", "222", "2000-01-02", ""⟩, 1⟩ (by decide),
   (contact_not_found_iff 5 ⟨"n2", "s2", "b@x.com", "222", "2000-01-02", ""⟩
      ⟨1, "u1", "u1@x.com", true⟩
      ⟨[⟨5, ⟨"n", "s", "a@x.com", "111", "2000-01-01", ""⟩, 1⟩], 6⟩).2.2.2.2.2
      ⟨5, ⟨"n", "s", "a@x.com", "111", "2000-01-01", ""⟩, 1⟩ (by decide)⟩

/-- C10: when the repository reports an existing contact with the same
email or phone, `ContactService.create_contact` raises HTTP 400 and
returns the store unchanged — the repository create, which always changes
the store, is never reached. -/
theorem create_contact_duplicate_atomic (body : ContactModel) (user : UserRec)
    (st : DBState)
    (h : ContactRepository.is_contact_exists body.email body.phone user st = true) :
    ContactService.create_contact body user st
        = (SvcOutcome.http 400 (dupDetail body), st)
      ∧ (ContactRepository.create_contact body user st).2 ≠ st := by
  constructor
  · simp [ContactService.create_contact, h]
  · intro he
    have h2 := congrArg DBState.nextId he
    simp [ContactRepository.create_contact] at h2

/-- Witness for `create_contact_duplicate_atomic`: re-creating a contact
whose email and phone this user already stored leaves the store unchanged
and surfaces HTTP 400. -/
theorem create_contact_duplicate_atomic_witness :
    ContactService.create_contact ⟨"n", "s", "a@x.com", "111", "2000-01-01", ""⟩
        ⟨1, "u1", "u1@x.com", true⟩
        ⟨[⟨0, ⟨"m", "t", "a@x.com", "222", "1990-01-01", ""⟩, 1⟩], 1⟩
      = (SvcOutcome.http 400 (dupDetail ⟨"n", "s", "a@x.com", "111", "2000-01-01", ""⟩),
         ⟨[⟨0, ⟨"m", "t", "a@x.com", "222", "1990-01-01", ""⟩, 1⟩], 1⟩)
    ∧ (ContactRepository.create_contact ⟨"n", "s", "a@x.com", "111", "2000-01-01", ""⟩
        ⟨1, "u1", "u1@x.com", true⟩
        ⟨[⟨0, ⟨"m", "t", "a@x.com", "222", "1990-01-01", ""⟩, 1⟩], 1⟩).2
      ≠ ⟨[⟨0, ⟨"m", "t", "a@x.com", "222", "1990-01-01", ""⟩, 1⟩], 1⟩ :=
  create_contact_duplicate_atomic ⟨"n", "s", "a@x.com", "111", "2000-01-01", ""⟩
    ⟨1, "u1", "u1@x.com", true⟩
    ⟨[⟨0, ⟨"m", "t", "a@x.com", "222", "1990-01-01", ""⟩, 1⟩], 1⟩ (by decide)
